import Mathlib

/-!
# Verification of the galaxy-zoo feature pipeline (`src/models/Base.py`)

Shallow embedding of the caching chunk-parallel image transformers
(`CropScaleImageTransformer`, `SampleTransformer`), the `ModelWrapper`
parallelism-placement policy, `BaseModel.run` dispatch, and the
`CascadeModel` training/cross-validation protocol, together with proofs
of the specified properties.

Conventions of the embedding:
* Per-image processing (loading a JPG, cropping, rescaling, pixel
  sampling) is an external collaborator of the pipeline; it is embedded
  as an abstract function `proc : α → β` mapping a file name to the
  produced feature row.
* A numpy 2-d array is embedded as a `List` of rows, or (for the
  cascade prediction matrix, which is indexed by column masks) as a
  function `Nat → Nat → ℚ` over row and column indices.
* The on-disk cache is embedded as a map `String → Option (List β)`
  from paths to stored arrays; `joblib.dump` updates it at one key and
  `joblib.load` reads it.  A memory-mapped load returns the same stored
  value, so the `memmap` flag does not change the returned data.
* Machine integers are `Int`/`Nat`; Python string formatting of numbers
  is `toString`.
-/

/-- Modelled from the spec: `classes.chunks` is not under `src/`.
The spec requires the file list to be partitioned into `n` contiguous
chunks whose concatenation in original chunk order is the input list.
`chunkAux size k l` yields `k` chunks of `size` elements followed by one
final chunk holding the remainder. -/
def chunkAux (size : Nat) : Nat → List α → List (List α)
  | 0, l => [l]
  | k + 1, l => l.take size :: chunkAux size k (l.drop size)

/-- Modelled from the spec: partition `l` into `n` contiguous chunks
(the first `n - 1` of size `l.length / n`, the last taking the rest). -/
def chunks (l : List α) (n : Nat) : List (List α) :=
  chunkAux (l.length / n) (n - 1) l

/-- `n_jobs` normalization shared by the three `__init__` bodies
(`src/models/Base.py` lines 598, 656, 716):
`(multiprocessing.cpu_count() + n_jobs + 1) if n_jobs <= -1 else n_jobs`. -/
def normalize_n_jobs (cpu : Nat) (n_jobs : Int) : Int :=
  if n_jobs ≤ -1 then (cpu : Int) + n_jobs + 1 else n_jobs

/-- `CropScaleImageTransformer` configuration state after `__init__`
(`src/models/Base.py` lines 593-601). -/
structure CropScaleImageTransformer where
  training : Bool
  crop_size : Nat
  scaled_size : Nat
  verbose : Nat
  n_jobs : Int
  force_rerun : Bool
  memmap : Bool
  result_path : String

/-- `CropScaleImageTransformer._get_result_path`
(`src/models/Base.py` lines 603-607). -/
def CropScaleImageTransformer.get_result_path
    (training : Bool) (crop_size scaled_size : Nat) : String :=
  if training then
    "data/img_train_c" ++ toString crop_size ++ "_s" ++ toString scaled_size ++ ".npy"
  else
    "data/img_test_c" ++ toString crop_size ++ "_s" ++ toString scaled_size ++ ".npy"

/-- `CropScaleImageTransformer.__init__` (`src/models/Base.py` lines
593-601): normalizes `n_jobs` and defaults the result path from the
configuration when the `result_path` argument is `None`. -/
def CropScaleImageTransformer.init (cpu : Nat) (training : Bool)
    (crop_size scaled_size : Nat) (result_path : Option String)
    (n_jobs : Int) (force_rerun : Bool) (verbose : Nat) (memmap : Bool) :
    CropScaleImageTransformer :=
  { training := training
    crop_size := crop_size
    scaled_size := scaled_size
    verbose := verbose
    n_jobs := normalize_n_jobs cpu n_jobs
    force_rerun := force_rerun
    memmap := memmap
    result_path :=
      result_path.getD
        (CropScaleImageTransformer.get_result_path training crop_size scaled_size) }

/-- `CropScaleImageTransformer._transform` (`src/models/Base.py` lines
612-623): row `i` of the output is the processed image of file `i` of
the chunk.  The per-image work (RawImage load, crop, rescale, `* 255`)
is the abstract collaborator `proc`. -/
def CropScaleImageTransformer.transformChunk (proc : α → β)
    (file_list : List α) : List β :=
  file_list.map proc

/-- The cache-miss computation of `CropScaleImageTransformer.transform`
(`src/models/Base.py` lines 638-640): `np.vstack` of
`_transform` applied to each of the `n_jobs` chunks, in chunk order
(joblib `Parallel` returns results in dispatch order). -/
def CropScaleImageTransformer.computeFeatures (proc : α → β)
    (t : CropScaleImageTransformer) (files : List α) : List β :=
  ((chunks files t.n_jobs.toNat).map
    (fun c => CropScaleImageTransformer.transformChunk proc c)).flatten

/-- `CropScaleImageTransformer.transform` (`src/models/Base.py` lines
625-645).  Returns the produced array, the updated cache, and the
number of images processed (0 on a cache hit). -/
def CropScaleImageTransformer.transform (proc : α → β)
    (t : CropScaleImageTransformer) (files : List α)
    (fs : String → Option (List β)) :
    List β × (String → Option (List β)) × Nat :=
  match fs t.result_path, t.force_rerun with
  | some cached, false => (cached, fs, 0)
  | _, _ =>
    let res := CropScaleImageTransformer.computeFeatures proc t files
    (res, fun p => if p = t.result_path then some res else fs p, files.length)

/-- `SampleTransformer` configuration state after `__init__`
(`src/models/Base.py` lines 652-660). -/
structure SampleTransformer where
  training : Bool
  steps : Nat
  step_size : Nat
  n_jobs : Int
  verbose : Nat
  result_path : String
  force_rerun : Bool
  memmap : Bool

/-- `SampleTransformer._get_result_path` (`src/models/Base.py` lines
662-666).  Note the source interpolates `self.steps` into the `size`
slot and `self.step_size` into the `steps` slot; the embedding keeps
that argument order. -/
def SampleTransformer.get_result_path
    (training : Bool) (steps step_size : Nat) : String :=
  if training then
    "data/img_train_pixel_size" ++ toString steps ++ "_steps" ++ toString step_size ++ ".npy"
  else
    "data/img_test_pixel_size" ++ toString steps ++ "_steps" ++ toString step_size ++ ".npy"

/-- `SampleTransformer.__init__` (`src/models/Base.py` lines 652-660). -/
def SampleTransformer.init (cpu : Nat) (training : Bool)
    (steps step_size : Nat) (n_jobs : Int) (verbose : Nat)
    (force_rerun : Bool) (memmap : Bool) : SampleTransformer :=
  { training := training
    steps := steps
    step_size := step_size
    n_jobs := normalize_n_jobs cpu n_jobs
    verbose := verbose
    result_path := SampleTransformer.get_result_path training steps step_size
    force_rerun := force_rerun
    memmap := memmap }

/-- The cache-miss computation of `SampleTransformer.transform`
(`src/models/Base.py` lines 682-684): `np.vstack` of
`_parallel_sampler` over the chunks; `_parallel_sampler` (lines
692-702) maps each file to one sampled row via the abstract
collaborator `proc`. -/
def SampleTransformer.computeFeatures (proc : α → β)
    (t : SampleTransformer) (files : List α) : List β :=
  ((chunks files t.n_jobs.toNat).map (fun c => c.map proc)).flatten

/-- `SampleTransformer.transform` (`src/models/Base.py` lines 668-689). -/
def SampleTransformer.transform (proc : α → β)
    (t : SampleTransformer) (files : List α)
    (fs : String → Option (List β)) :
    List β × (String → Option (List β)) × Nat :=
  match fs t.result_path, t.force_rerun with
  | some cached, false => (cached, fs, 0)
  | _, _ =>
    let res := SampleTransformer.computeFeatures proc t files
    (res, fun p => if p = t.result_path then some res else fs p, files.length)

/-- The introspectable parallelism state of an sklearn-style estimator:
whether `'n_jobs' in estimator.get_params().keys()`, and the current
value of that parameter (meaningful only when `has_n_jobs`). -/
structure SkEstimator where
  has_n_jobs : Bool
  n_jobs : Int

/-- `ModelWrapper` state after `__init__` (`src/models/Base.py` lines
713-716); the estimator class and defaults are opaque. -/
structure ModelWrapper where
  n_jobs : Int

/-- `ModelWrapper.__init__` (`src/models/Base.py` lines 713-716). -/
def ModelWrapper.init (cpu : Nat) (n_jobs : Int) : ModelWrapper :=
  { n_jobs := normalize_n_jobs cpu n_jobs }

/-- The parallelism-placement setup of `ModelWrapper.grid_search`
(`src/models/Base.py` lines 727-743): `params['n_jobs']` starts as
`self.n_jobs`; if the estimator exposes `n_jobs` then either the
estimator is parallelized and the outer level forced to 1
(`parallel_estimator` true) or the estimator is forced to 1.  Returns
the estimator after `set_params` and the outer `n_jobs` handed to
`GridSearchCV`. -/
def ModelWrapper.grid_search_setup (w : ModelWrapper) (estimator : SkEstimator)
    (parallel_estimator : Bool) : SkEstimator × Int :=
  if estimator.has_n_jobs then
    if parallel_estimator then ({ estimator with n_jobs := w.n_jobs }, 1)
    else ({ estimator with n_jobs := 1 }, w.n_jobs)
  else (estimator, w.n_jobs)

/-- The parallelism-placement setup of `ModelWrapper.cross_validation`
(`src/models/Base.py` lines 793-807), identical in structure to the
grid-search setup; the outer value is handed to `cross_val_score`. -/
def ModelWrapper.cross_validation_setup (w : ModelWrapper)
    (estimator : SkEstimator) (parallel_estimator : Bool) : SkEstimator × Int :=
  if estimator.has_n_jobs then
    if parallel_estimator then ({ estimator with n_jobs := w.n_jobs }, 1)
    else ({ estimator with n_jobs := 1 }, w.n_jobs)
  else (estimator, w.n_jobs)

/-- The valid job names of `BaseModel.run` (`src/models/Base.py` line 332). -/
def BaseModel.jobs : List String := ["grid_search", "cv", "train", "predict"]

/-- `BaseModel.run` (`src/models/Base.py` lines 315-356): the method
name is validated against `jobs` before any work; on success the value
carries the ordered log of performed steps (`build_train_predictors`
followed by the dispatched job). -/
def BaseModel.run (method : String) : Except String (List String) :=
  if method ∉ BaseModel.jobs then
    Except.error (method ++ " is not a valid job")
  else
    Except.ok (["build_train_predictors", method])

/-- `ModelWrapper.predict` (`src/models/Base.py` lines 828-833): the
fitted estimator `estimator_` exists only after `fit`; predicting
without it raises.  `predictFn` is the opaque estimator prediction. -/
def ModelWrapper.predict (estimator_fitted : Option SkEstimator)
    (predictFn : SkEstimator → ξ → υ) (X : ξ) : Except String υ :=
  match estimator_fitted with
  | none => Except.error "Estimator has not been trained"
  | some e => Except.ok (predictFn e X)

/-- A cascade-stage estimator as a black box: for a class number, the
stage's input feature rows and target rows, it yields the in-sample
prediction row for each sample (`clone`, `fit`, `predict` fused,
`src/models/Base.py` lines 463-483 and 536-553). -/
abbrev EstFun := Nat → (Nat → List ℚ) → (Nat → List ℚ) → Nat → List ℚ

/-- `np.any(preds, axis=0)` applied as a column selector
(`src/models/Base.py` lines 467-468 and 538): the columns `j < C` of
the `n`-row prediction matrix holding at least one nonzero entry, in
increasing order. -/
def populatedCols (n C : Nat) (preds : Nat → Nat → ℚ) : List Nat :=
  (List.range C).filter (fun j => (List.range n).any (fun i => decide (preds i j ≠ 0)))

/-- `np.hstack((X, preds[:, existing]))` (`src/models/Base.py` lines
469-470 and 541): each row of the base features extended with that
row's entries of the populated prediction columns. -/
def cascadeStageInput (X : Nat → List ℚ) (n C : Nat)
    (preds : Nat → Nat → ℚ) : Nat → List ℚ :=
  fun i => X i ++ (populatedCols n C preds).map (fun j => preds i j)

/-- One cascade stage (the body of the `for cls in range(1, 12)` loop
of `CascadeModel.train`, `src/models/Base.py` lines 531-556, and the
identical inner loop of `perform_cross_validation`, lines 458-509):
build the stage input from the base features and the populated
prediction columns, fit/predict via the opaque estimator on the class's
target columns, and write the predictions into `preds[:, cols]`. -/
def cascadeTrainStep (n C : Nat) (cm : Nat → List Nat) (est : EstFun)
    (X : Nat → List ℚ) (Y : Nat → Nat → ℚ)
    (preds : Nat → Nat → ℚ) (cls : Nat) : Nat → Nat → ℚ :=
  let cols := cm cls
  let this_x := cascadeStageInput X n C preds
  let this_y := fun i => cols.map (fun j => Y i j)
  let y_pred := est cls this_x this_y
  fun i j => if j ∈ cols then (y_pred i).getD (cols.indexOf j) 0 else preds i j

/-- The cascade training loop after its first `c` stages
(`src/models/Base.py` lines 528-556): `preds = np.zeros(...)` then the
stage body for classes `1, 2, ..., c`.  `CascadeModel.train` runs it to
`c = 11`.  `cm` is the static class-to-columns map
(`train_solutions.class_map`, not under `src/`; the spec partitions the
`C` target columns into 11 disjoint groups). -/
def cascadeTrainUpTo (n C : Nat) (cm : Nat → List Nat) (est : EstFun)
    (X : Nat → List ℚ) (Y : Nat → Nat → ℚ) (c : Nat) : Nat → Nat → ℚ :=
  (List.range c).foldl
    (fun preds k => cascadeTrainStep n C cm est X Y preds (k + 1))
    (fun _ _ => 0)

/-- The columns (in increasing order) belonging to the class groups
`1..c` of the class-to-columns map, among the `C` target columns. -/
def groupColsUpTo (cm : Nat → List Nat) (C c : Nat) : List Nat :=
  (List.range C).filter
    (fun j => (List.range c).any (fun k => decide (j ∈ cm (k + 1))))

/-- `CascadeModel.predict` (`src/models/Base.py` lines 566-575): the
body of the method is nothing but a docstring reading
"TO BE IMPLEMENTED"; it performs no stage processing and returns
`None` for every input. -/
def CascadeModel.predict (test_x : List (List ℚ)) :
    Option (List (List ℚ)) :=
  none

/-- Indexing a 1-d numpy array by an index list, `arr[idx]`
(`src/models/Base.py` lines 494-495): row `k` of the result is
`arr[idx[k]]`. -/
def get_scale_rows (scale_factors : List ℚ) (idx : List Nat) : List ℚ :=
  idx.map (fun i => scale_factors.getD i 0)

/-- Modelled from the spec: the scale-factor rows required for a fold's
evaluation in scaled mode.  `sel` maps each row of the (possibly
down-sampled, shuffled by `train_test_split`) CV data back to its row
in the original unscaled target matrix, and `idx` is the fold's
train/test index list into the CV data; the factor for fold position
`k` must be the original-data factor of row `sel[idx[k]]`. -/
def spec_scale_rows (scale_factors : List ℚ) (sel idx : List Nat) : List ℚ :=
  (idx.map (fun i => sel.getD i 0)).map (fun r => scale_factors.getD r 0)

/-- The per-fold epilogue of `CascadeModel.perform_cross_validation`
(`src/models/Base.py` lines 511-517) iterated over the folds: the local
`fold_rmse` is bound only in the `else` (unscaled) branch and is read
by `overall_scores.append(fold_rmse)` in every fold; `Option` models
the binding state of the local (`none` = unbound, a read of `none`
is Python's `UnboundLocalError`).  `score k` stands for
`rmse(this_test_y, test_preds)` of fold `k`. -/
def cvOverallScores (scaled : Bool) (folds : Nat) (score : Nat → ℚ) :
    List (Option ℚ) :=
  ((List.range folds).foldl
    (fun acc k =>
      let fold_rmse := if scaled then acc.2 else some (score k)
      (acc.1 ++ [fold_rmse], fold_rmse))
    ([], none)).1

theorem chunkAux_flatten (size k : Nat) (l : List α) :
    (chunkAux size k l).flatten = l := by
  induction k generalizing l with
  | zero => simp [chunkAux]
  | succ k ih => simp [chunkAux, ih]

theorem chunks_flatten (l : List α) (n : Nat) : (chunks l n).flatten = l := by
  simp [chunks, chunkAux_flatten]

theorem flatten_map_map (proc : α → β) (L : List (List α)) :
    (L.map (fun c => c.map proc)).flatten = L.flatten.map proc := by
  induction L with
  | nil => rfl
  | cons c L ih =>
    simp only [List.map_cons, List.flatten_cons, List.map_append, ih]

/-- C10: every `n_jobs <= -1` passed to `CropScaleImageTransformer`,
`SampleTransformer` or `ModelWrapper` is stored as
`cpu_count() + n_jobs + 1` (so `-1` yields exactly the CPU count),
while any `n_jobs >= 0` is stored unchanged; all three constructors
store exactly the shared normalization. -/
theorem n_jobs_normalized (cpu : Nat) (n : Int)
    (training : Bool) (crop_size scaled_size steps step_size verbose : Nat)
    (result_path : Option String) (force_rerun memmap : Bool) :
    (n ≤ -1 → normalize_n_jobs cpu n = (cpu : Int) + n + 1) ∧
    (normalize_n_jobs cpu (-1) = (cpu : Int)) ∧
    (0 ≤ n → normalize_n_jobs cpu n = n) ∧
    (CropScaleImageTransformer.init cpu training crop_size scaled_size
      result_path n force_rerun verbose memmap).n_jobs = normalize_n_jobs cpu n ∧
    (SampleTransformer.init cpu training steps step_size n verbose
      force_rerun memmap).n_jobs = normalize_n_jobs cpu n ∧
    (ModelWrapper.init cpu n).n_jobs = normalize_n_jobs cpu n := by
  refine ⟨fun h => by simp [normalize_n_jobs, h], ?_, fun h => ?_, rfl, rfl, rfl⟩
  · simp [normalize_n_jobs]
  · have hn : ¬ n ≤ -1 := by omega
    simp [normalize_n_jobs, hn]

theorem n_jobs_normalized_witness :
    normalize_n_jobs 4 (-3) = 2 ∧ normalize_n_jobs 4 7 = 7 := by
  constructor
  · rw [(n_jobs_normalized 4 (-3) true 0 0 0 0 0 none false false).1 (by decide)]
    decide
  · exact (n_jobs_normalized 4 7 true 0 0 0 0 0 none false false).2.2.1 (by decide)

/-- C7: the cache path is a deterministic function of the transformer's
own configuration only — `training`/`crop_size`/`scaled_size` for
`CropScaleImageTransformer`, `training`/`steps`/`step_size` for
`SampleTransformer`: instances agreeing on those parameters (whatever
their `n_jobs`, `force_rerun`, `verbose`, `memmap` or machine CPU
count) store the same `result_path`, namely `_get_result_path` of the
configuration; neither path function takes the input file list, so the
path cannot depend on the list's contents or length. -/
theorem cache_path_deterministic
    (cpu1 cpu2 : Nat) (training : Bool) (crop scaled steps step_size v1 v2 : Nat)
    (n1 n2 : Int) (f1 f2 m1 m2 : Bool) :
    (CropScaleImageTransformer.init cpu1 training crop scaled none n1 f1 v1 m1).result_path
      = (CropScaleImageTransformer.init cpu2 training crop scaled none n2 f2 v2 m2).result_path ∧
    (SampleTransformer.init cpu1 training steps step_size n1 v1 f1 m1).result_path
      = (SampleTransformer.init cpu2 training steps step_size n2 v2 f2 m2).result_path ∧
    (CropScaleImageTransformer.init cpu1 training crop scaled none n1 f1 v1 m1).result_path
      = CropScaleImageTransformer.get_result_path training crop scaled ∧
    (SampleTransformer.init cpu1 training steps step_size n1 v1 f1 m1).result_path
      = SampleTransformer.get_result_path training steps step_size :=
  ⟨rfl, rfl, rfl, rfl⟩

/-- C2: for an estimator exposing `n_jobs`, after the setup phase of
`ModelWrapper.grid_search` and `ModelWrapper.cross_validation` with
`parallel_estimator = True` the estimator's `n_jobs` is the wrapper's
and the outer `n_jobs` is 1; with `parallel_estimator = False` the
estimator's is 1 and the outer is the wrapper's; one of the two levels
is always 1. -/
theorem parallelism_mutual_exclusion (w : ModelWrapper) (est : SkEstimator)
    (h : est.has_n_jobs = true) :
    ((w.grid_search_setup est true).1.n_jobs = w.n_jobs ∧
      (w.grid_search_setup est true).2 = 1) ∧
    ((w.grid_search_setup est false).1.n_jobs = 1 ∧
      (w.grid_search_setup est false).2 = w.n_jobs) ∧
    ((w.cross_validation_setup est true).1.n_jobs = w.n_jobs ∧
      (w.cross_validation_setup est true).2 = 1) ∧
    ((w.cross_validation_setup est false).1.n_jobs = 1 ∧
      (w.cross_validation_setup est false).2 = w.n_jobs) ∧
    (∀ pe : Bool, (w.grid_search_setup est pe).1.n_jobs = 1 ∨
      (w.grid_search_setup est pe).2 = 1) ∧
    (∀ pe : Bool, (w.cross_validation_setup est pe).1.n_jobs = 1 ∨
      (w.cross_validation_setup est pe).2 = 1) := by
  refine ⟨?_, ?_, ?_, ?_, ?_, ?_⟩ <;>
    simp [ModelWrapper.grid_search_setup, ModelWrapper.cross_validation_setup, h]

theorem parallelism_mutual_exclusion_witness :
    ((ModelWrapper.mk 8).grid_search_setup ⟨true, 5⟩ true).1.n_jobs = 8 ∧
    ((ModelWrapper.mk 8).grid_search_setup ⟨true, 5⟩ true).2 = 1 ∧
    ((ModelWrapper.mk 8).cross_validation_setup ⟨true, 5⟩ false).1.n_jobs = 1 ∧
    ((ModelWrapper.mk 8).cross_validation_setup ⟨true, 5⟩ false).2 = 8 := by
  have h := parallelism_mutual_exclusion (ModelWrapper.mk 8) ⟨true, 5⟩ rfl
  exact ⟨h.1.1, h.1.2, h.2.2.2.1.1, h.2.2.2.1.2⟩

/-- C8: `BaseModel.run` errors for every method name outside
`{grid_search, cv, train, predict}` before performing any work (no
step log is ever produced), and `ModelWrapper.predict` errors when no
estimator has been fitted, producing no prediction. -/
theorem invalid_job_and_unfit_predict_raise (method : String)
    (hm : method ∉ BaseModel.jobs)
    (predictFn : SkEstimator → Nat → Nat) (X : Nat) :
    BaseModel.run method = Except.error (method ++ " is not a valid job") ∧
    (∀ log, BaseModel.run method ≠ Except.ok log) ∧
    ModelWrapper.predict none predictFn X
      = Except.error "Estimator has not been trained" ∧
    (∀ y, ModelWrapper.predict none predictFn X ≠ Except.ok y) := by
  refine ⟨?_, ?_, rfl, ?_⟩
  · simp [BaseModel.run, hm]
  · intro log
    simp [BaseModel.run, hm]
  · intro y h
    exact Except.noConfusion h

theorem invalid_job_and_unfit_predict_raise_witness :
    BaseModel.run "fit" = Except.error "fit is not a valid job" := by
  exact (invalid_job_and_unfit_predict_raise "fit" (by decide)
    (fun _ n => n) 0).1

/-- C6 (code bug): `CascadeModel.predict` (`src/models/Base.py` lines
566-575) consists solely of a docstring reading "TO BE IMPLEMENTED";
for every fitted model and test matrix it performs none of the 11
cascade stages and returns `None` instead of a prediction matrix. -/
theorem cascade_predict_unimplemented (test_x : List (List ℚ)) :
    CascadeModel.predict test_x = none := rfl

/-- C9 (code bug): in `CascadeModel.perform_cross_validation` the
per-fold local `fold_rmse` is bound only on the unscaled branch
(`if self.scaled: pass`, lines 511-514), so in scaled mode every fold
appends an unbound read (`UnboundLocalError` in Python, `none` here),
while in unscaled mode every fold appends a defined score. -/
theorem cv_fold_score_unbound_when_scaled :
    cvOverallScores true 2 (fun _ => 0) = [none, none] ∧
    cvOverallScores false 2 (fun k => (k : ℚ)) = [some 0, some 1] := by
  constructor <;> rfl

/-- C4 (code bug): in scaled mode the code takes the fold's scale
factors as `scale_factors[train]` / `scale_factors[test]`
(`src/models/Base.py` lines 489-495), indexing the original-order
full-training-set factors directly with fold indices, although the fold
indices address the shuffled/down-sampled output of
`train_test_split`; the source comment at line 488 concedes this
("this does not work correctly because cv_y is already split").  With
original factors `[1, 2, 3, 4]`, a down-sampled selection keeping
original rows `2, 0` and a fold train split `[0, 1]`, the code uses
factors `[1, 2]` while the rows' true factors are `[3, 1]`. -/
theorem scaled_cv_misaligned_scale_rows :
    get_scale_rows [1, 2, 3, 4] [0, 1] ≠ spec_scale_rows [1, 2, 3, 4] [2, 0] [0, 1] ∧
    get_scale_rows [1, 2, 3, 4] [0, 1] = [1, 2] ∧
    spec_scale_rows [1, 2, 3, 4] [2, 0] [0, 1] = [3, 1] := by
  refine ⟨?_, rfl, rfl⟩
  decide

theorem cropScale_transform_miss (proc : α → β)
    (t : CropScaleImageTransformer) (files : List α)
    (fs : String → Option (List β))
    (h : fs t.result_path = none ∨ t.force_rerun = true) :
    CropScaleImageTransformer.transform proc t files fs
      = (CropScaleImageTransformer.computeFeatures proc t files,
         fun p => if p = t.result_path
           then some (CropScaleImageTransformer.computeFeatures proc t files)
           else fs p,
         files.length) := by
  rcases h with h | h
  · simp [CropScaleImageTransformer.transform, h]
  · cases hfs : fs t.result_path <;>
      simp [CropScaleImageTransformer.transform, h, hfs]

theorem sample_transform_miss (proc : α → β)
    (s : SampleTransformer) (files : List α)
    (fs : String → Option (List β))
    (h : fs s.result_path = none ∨ s.force_rerun = true) :
    SampleTransformer.transform proc s files fs
      = (SampleTransformer.computeFeatures proc s files,
         fun p => if p = s.result_path
           then some (SampleTransformer.computeFeatures proc s files)
           else fs p,
         files.length) := by
  rcases h with h | h
  · simp [SampleTransformer.transform, h]
  · cases hfs : fs s.result_path <;>
      simp [SampleTransformer.transform, h, hfs]

/-- C5: for both caching transformers, when the cache holds an entry at
the transformer's result path and `force_rerun` is false, `transform`
returns the stored array (the memory-mapped view being the same stored
data), leaves the cache untouched and processes 0 images; otherwise it
computes the features, persists exactly one cache entry — at the result
path, all other paths unchanged — and returns the computed result. -/
theorem transform_cache_policy (proc sproc : α → β)
    (t : CropScaleImageTransformer) (s : SampleTransformer) (files sfiles : List α)
    (fs sfs : String → Option (List β)) :
    (∀ cached, fs t.result_path = some cached → t.force_rerun = false →
      CropScaleImageTransformer.transform proc t files fs = (cached, fs, 0)) ∧
    ((fs t.result_path = none ∨ t.force_rerun = true) →
      (CropScaleImageTransformer.transform proc t files fs).1
          = CropScaleImageTransformer.computeFeatures proc t files ∧
      (CropScaleImageTransformer.transform proc t files fs).2.1 t.result_path
          = some (CropScaleImageTransformer.transform proc t files fs).1 ∧
      (∀ p, p ≠ t.result_path →
        (CropScaleImageTransformer.transform proc t files fs).2.1 p = fs p) ∧
      (CropScaleImageTransformer.transform proc t files fs).2.2 = files.length) ∧
    (∀ cached, sfs s.result_path = some cached → s.force_rerun = false →
      SampleTransformer.transform sproc s sfiles sfs = (cached, sfs, 0)) ∧
    ((sfs s.result_path = none ∨ s.force_rerun = true) →
      (SampleTransformer.transform sproc s sfiles sfs).1
          = SampleTransformer.computeFeatures sproc s sfiles ∧
      (SampleTransformer.transform sproc s sfiles sfs).2.1 s.result_path
          = some (SampleTransformer.transform sproc s sfiles sfs).1 ∧
      (∀ p, p ≠ s.result_path →
        (SampleTransformer.transform sproc s sfiles sfs).2.1 p = sfs p) ∧
      (SampleTransformer.transform sproc s sfiles sfs).2.2 = sfiles.length) := by
  refine ⟨?_, ?_, ?_, ?_⟩
  · intro cached hc hf
    simp [CropScaleImageTransformer.transform, hc, hf]
  · intro h
    rw [cropScale_transform_miss proc t files fs h]
    refine ⟨rfl, by simp, fun p hp => by simp [hp], rfl⟩
  · intro cached hc hf
    simp [SampleTransformer.transform, hc, hf]
  · intro h
    rw [sample_transform_miss sproc s sfiles sfs h]
    refine ⟨rfl, by simp, fun p hp => by simp [hp], rfl⟩

theorem transform_cache_policy_witness :
    CropScaleImageTransformer.transform (fun n : Nat => n + 1)
      (CropScaleImageTransformer.init 4 true 100 10 none 2 false 3 false)
      [1, 2] (fun _ => some [9])
      = ([9], fun _ => some [9], 0) ∧
    (SampleTransformer.transform (fun n : Nat => n + 1)
      (SampleTransformer.init 4 true 5 2 2 3 false false)
      [1, 2] (fun _ => none)).1 = [2, 3] := by
  constructor
  · exact (transform_cache_policy (fun n : Nat => n + 1) (fun n : Nat => n + 1)
      (CropScaleImageTransformer.init 4 true 100 10 none 2 false 3 false)
      (SampleTransformer.init 4 true 5 2 2 3 false false)
      [1, 2] [1, 2] (fun _ => some [9]) (fun _ => none)).1 [9] rfl rfl
  · have h := (transform_cache_policy (fun n : Nat => n + 1) (fun n : Nat => n + 1)
      (CropScaleImageTransformer.init 4 true 100 10 none 2 false 3 false)
      (SampleTransformer.init 4 true 5 2 2 3 false false)
      [1, 2] [1, 2] (fun _ => some [9]) (fun _ => none)).2.2.2 (Or.inl rfl)
    rw [h.1]
    decide

/-- C1: on a cache miss, for any chunk count `n_jobs ≥ 1`,
`CropScaleImageTransformer.transform` returns one row per input file,
row `i` being the processed image of file `i`, and the result equals
the sequential (`n_jobs = 1`) computation — chunking does not affect
the output. -/
theorem transform_rows_chunk_independent (proc : α → β)
    (t : CropScaleImageTransformer) (files : List α)
    (fs : String → Option (List β))
    (hn : 1 ≤ t.n_jobs) (hmiss : fs t.result_path = none) :
    (CropScaleImageTransformer.transform proc t files fs).1 = files.map proc ∧
    (CropScaleImageTransformer.transform proc t files fs).1.length = files.length ∧
    (∀ i, (CropScaleImageTransformer.transform proc t files fs).1.get? i
        = (files.get? i).map proc) ∧
    (CropScaleImageTransformer.transform proc t files fs).1
      = (CropScaleImageTransformer.transform proc
          { t with n_jobs := 1 } files fs).1 := by
  have hmain : ∀ t' : CropScaleImageTransformer, fs t'.result_path = none →
      (CropScaleImageTransformer.transform proc t' files fs).1 = files.map proc := by
    intro t' hmiss'
    simp only [CropScaleImageTransformer.transform, hmiss',
      CropScaleImageTransformer.computeFeatures,
      CropScaleImageTransformer.transformChunk]
    rw [flatten_map_map, chunks_flatten]
  have h1 := hmain t hmiss
  have h2 := hmain { t with n_jobs := 1 } hmiss
  refine ⟨h1, by rw [h1]; simp, ?_, by rw [h1, h2]⟩
  intro i
  rw [h1]
  exact List.get?_map proc files i

theorem transform_rows_chunk_independent_witness :
    (CropScaleImageTransformer.transform (fun n : Nat => n * 2)
      (CropScaleImageTransformer.init 4 true 100 10 none 3 false 3 false)
      [1, 2, 3] (fun _ => none)).1 = [2, 4, 6] := by
  have h := transform_rows_chunk_independent (fun n : Nat => n * 2)
    (CropScaleImageTransformer.init 4 true 100 10 none 3 false 3 false)
    [1, 2, 3] (fun _ => none) (by decide) rfl
  rw [h.1]
  decide

theorem cascadeTrainUpTo_succ (n C : Nat) (cm : Nat → List Nat) (est : EstFun)
    (X : Nat → List ℚ) (Y : Nat → Nat → ℚ) (c : Nat) :
    cascadeTrainUpTo n C cm est X Y (c + 1)
      = cascadeTrainStep n C cm est X Y (cascadeTrainUpTo n C cm est X Y c) (c + 1) := by
  simp [cascadeTrainUpTo, List.range_succ, List.foldl_append]

theorem cascadeTrainStep_not_mem (n C : Nat) (cm : Nat → List Nat) (est : EstFun)
    (X : Nat → List ℚ) (Y : Nat → Nat → ℚ) (preds : Nat → Nat → ℚ)
    (cls i j : Nat) (hj : j ∉ cm cls) :
    cascadeTrainStep n C cm est X Y preds cls i j = preds i j := by
  simp [cascadeTrainStep, hj]

theorem cascadeTrainStep_mem_col (n C : Nat) (cm : Nat → List Nat) (est : EstFun)
    (X : Nat → List ℚ) (Y : Nat → Nat → ℚ) (preds : Nat → Nat → ℚ)
    (cls i j : Nat) (hj : j ∈ cm cls) :
    cascadeTrainStep n C cm est X Y preds cls i j
      = (est cls (cascadeStageInput X n C preds)
          (fun r => (cm cls).map (fun col => Y r col)) i).getD ((cm cls).indexOf j) 0 := by
  simp [cascadeTrainStep, hj]

theorem cascade_zero_nonzero (n C : Nat) (cm : Nat → List Nat) (est : EstFun)
    (X : Nat → List ℚ) (Y : Nat → Nat → ℚ)
    (hdis : ∀ a b, a ≠ b → ∀ j, j ∈ cm a → j ∉ cm b)
    (hnz : ∀ cls x y k, k < (cm cls).length →
      ∃ i, i < n ∧ (est cls x y i).getD k 0 ≠ 0)
    (c : Nat) :
    (∀ j, (∀ cls, 1 ≤ cls → cls ≤ c → j ∉ cm cls) →
       ∀ i, cascadeTrainUpTo n C cm est X Y c i j = 0) ∧
    (∀ cls, 1 ≤ cls → cls ≤ c → ∀ j, j ∈ cm cls →
       ∃ i, i < n ∧ cascadeTrainUpTo n C cm est X Y c i j ≠ 0) := by
  induction c with
  | zero =>
    refine ⟨fun j _ i => rfl, fun cls h1 h2 j _ => absurd (le_trans h1 h2) (by omega)⟩
  | succ c ih =>
    obtain ⟨ihz, ihnz⟩ := ih
    constructor
    · intro j hj i
      rw [cascadeTrainUpTo_succ,
        cascadeTrainStep_not_mem n C cm est X Y _ _ i j
          (hj (c + 1) (by omega) (le_refl _))]
      exact ihz j (fun cls h1 h2 => hj cls h1 (by omega)) i
    · intro cls h1 h2 j hj
      rcases Nat.lt_or_ge cls (c + 1) with hlt | hge
      · have hjc : j ∉ cm (c + 1) := hdis cls (c + 1) (by omega) j hj
        obtain ⟨i, hi, hne0⟩ := ihnz cls h1 (by omega) j hj
        refine ⟨i, hi, ?_⟩
        rw [cascadeTrainUpTo_succ,
          cascadeTrainStep_not_mem n C cm est X Y _ _ i j hjc]
        exact hne0
      · have hceq : cls = c + 1 := by omega
        subst hceq
        have hidx : (cm (c + 1)).indexOf j < (cm (c + 1)).length :=
          List.indexOf_lt_length.mpr hj
        obtain ⟨i, hi, hne0⟩ := hnz (c + 1)
          (cascadeStageInput X n C (cascadeTrainUpTo n C cm est X Y c))
          (fun r => (cm (c + 1)).map (fun col => Y r col))
          ((cm (c + 1)).indexOf j) hidx
        refine ⟨i, hi, ?_⟩
        rw [cascadeTrainUpTo_succ,
          cascadeTrainStep_mem_col n C cm est X Y _ _ i j hj]
        exact hne0

theorem populatedCols_upTo (n C : Nat) (cm : Nat → List Nat) (est : EstFun)
    (X : Nat → List ℚ) (Y : Nat → Nat → ℚ)
    (hdis : ∀ a b, a ≠ b → ∀ j, j ∈ cm a → j ∉ cm b)
    (hnz : ∀ cls x y k, k < (cm cls).length →
      ∃ i, i < n ∧ (est cls x y i).getD k 0 ≠ 0)
    (c : Nat) :
    populatedCols n C (cascadeTrainUpTo n C cm est X Y c) = groupColsUpTo cm C c := by
  obtain ⟨hz, hnzc⟩ := cascade_zero_nonzero n C cm est X Y hdis hnz c
  unfold populatedCols groupColsUpTo
  apply List.filter_congr
  intro j _
  apply Bool.eq_iff_iff.mpr
  rw [List.any_eq_true, List.any_eq_true]
  simp only [List.mem_range, decide_eq_true_eq]
  constructor
  · rintro ⟨i, hi, hne⟩
    by_contra hnone
    push_neg at hnone
    refine hne (hz j (fun cls hc1 hc2 => ?_) i)
    have hcl : cls = (cls - 1) + 1 := by omega
    rw [hcl]
    exact hnone (cls - 1) (by omega)
  · rintro ⟨k, hk, hmem⟩
    obtain ⟨i, hi, hne⟩ := hnzc (k + 1) (by omega) (by omega) j hmem
    exact ⟨i, hi, hne⟩

theorem cascadeTrain_target_congr (n C : Nat) (cm : Nat → List Nat) (est : EstFun)
    (X : Nat → List ℚ) (Y Y2 : Nat → Nat → ℚ) :
    ∀ c, (∀ i j cls, 1 ≤ cls → cls ≤ c → j ∈ cm cls → Y i j = Y2 i j) →
      cascadeTrainUpTo n C cm est X Y c = cascadeTrainUpTo n C cm est X Y2 c := by
  intro c
  induction c with
  | zero => intro _; rfl
  | succ c ih =>
    intro hagree
    have ihe := ih (fun i j cls h1 h2 hm => hagree i j cls h1 (by omega) hm)
    rw [cascadeTrainUpTo_succ, cascadeTrainUpTo_succ, ihe]
    simp only [cascadeTrainStep]
    have hy : (fun r => (cm (c + 1)).map (fun col => Y r col))
        = (fun r => (cm (c + 1)).map (fun col => Y2 r col)) := by
      funext r
      exact List.map_congr_left
        (fun col hcol => hagree r col (c + 1) (by omega) (le_refl _) hcol)
    rw [hy]

/-- C3 (amended): in the cascade training loop (and, with the estimator
black box instantiated per fold, the identical inner loop of
`perform_cross_validation`), provided the class-to-columns map is
pairwise disjoint and every stage's in-sample prediction carries at
least one nonzero entry in each of its columns — "populated" is decided
by the code's nonzero test `np.any(preds, axis=0)` — then: the initial
prediction matrix has no populated column; after stage `c` of the fixed
order 1..11 the populated columns are exactly the union of the column
groups of classes 1..c; stage `c + 1`'s input features are the base
features horizontally extended with exactly those columns (unpopulated
ones excluded); and the matrix after stage `c` is unchanged under any
modification of the targets of classes above `c`. -/
theorem cascade_monotone_growth (n C : Nat) (cm : Nat → List Nat)
    (est : EstFun) (X : Nat → List ℚ) (Y Y2 : Nat → Nat → ℚ)
    (hdis : ∀ a b, a ≠ b → ∀ j, j ∈ cm a → j ∉ cm b)
    (hnz : ∀ cls x y k, k < (cm cls).length →
      ∃ i, i < n ∧ (est cls x y i).getD k 0 ≠ 0) :
    populatedCols n C (cascadeTrainUpTo n C cm est X Y 0) = [] ∧
    (∀ c, c ≤ 11 →
      populatedCols n C (cascadeTrainUpTo n C cm est X Y c)
        = groupColsUpTo cm C c) ∧
    (∀ c, c < 11 →
      cascadeStageInput X n C (cascadeTrainUpTo n C cm est X Y c)
        = fun i => X i ++ (groupColsUpTo cm C c).map
            (fun j => cascadeTrainUpTo n C cm est X Y c i j)) ∧
    (∀ c, c ≤ 11 →
      (∀ i j cls, 1 ≤ cls → cls ≤ c → j ∈ cm cls → Y i j = Y2 i j) →
      cascadeTrainUpTo n C cm est X Y c = cascadeTrainUpTo n C cm est X Y2 c) := by
  refine ⟨?_, fun c _ => populatedCols_upTo n C cm est X Y hdis hnz c,
    fun c _ => ?_, fun c _ hagree => cascadeTrain_target_congr n C cm est X Y Y2 c hagree⟩
  · simp [populatedCols, cascadeTrainUpTo]
  · funext i
    unfold cascadeStageInput
    rw [populatedCols_upTo n C cm est X Y hdis hnz c]

/-- The two-class column map used to exercise the cascade embedding:
class 1 owns column 0, class 2 owns column 1, all other classes own no
column. -/
def cmTwo : Nat → List Nat := fun cls =>
  if cls = 1 then [0] else if cls = 2 then [1] else []

/-- A cascade-stage estimator whose in-sample prediction is identically
zero for every sample. -/
def estZero : EstFun := fun _ _ _ _ => [0]

/-- A cascade-stage estimator predicting the constant 1 for every
sample (each `cmTwo` group has at most one column). -/
def estOne : EstFun := fun _ _ _ _ => [1]

/-- C3 counterexample: the populated-column claim fails as stated.
With one training row, two target columns, the column map `cmTwo` and
an estimator whose stage-1 in-sample prediction is identically zero,
column 0 — class 1's entire column group — is written by stage 1 yet
is not populated afterwards (`np.any` sees only zeros), so the
populated set after stage 1 is empty rather than the union of the
column groups of classes 1..1. -/
theorem cascade_monotone_growth_counterexample :
    0 ∈ cmTwo 1 ∧
    0 ∉ populatedCols 1 2
      (cascadeTrainUpTo 1 2 cmTwo estZero (fun _ => [1]) (fun _ _ => 1) 1) := by
  constructor
  · decide
  · decide

theorem cascade_monotone_growth_witness :
    populatedCols 1 2 (cascadeTrainUpTo 1 2 cmTwo estOne (fun _ => [1]) (fun _ _ => 1) 2)
      = groupColsUpTo cmTwo 2 2 ∧
    groupColsUpTo cmTwo 2 2 = [0, 1] := by
  have hdis : ∀ a b, a ≠ b → ∀ j, j ∈ cmTwo a → j ∉ cmTwo b := by
    intro a b hab j hja hjb
    simp only [cmTwo] at hja hjb
    split_ifs at hja hjb <;> simp_all
  have hnz : ∀ cls x y k, k < (cmTwo cls).length →
      ∃ i, i < 1 ∧ (estOne cls x y i).getD k 0 ≠ 0 := by
    intro cls x y k hk
    have hl : (cmTwo cls).length ≤ 1 := by
      simp only [cmTwo]
      split_ifs <;> simp
    have hk0 : k = 0 := by omega
    subst hk0
    exact ⟨0, by omega, by simp [estOne]⟩
  have h := cascade_monotone_growth 1 2 cmTwo estOne (fun _ => [1])
    (fun _ _ => 1) (fun _ _ => 1) hdis hnz
  exact ⟨h.2.1 2 (by omega), by decide⟩
